import Mathlib

/-!
Verification of `esextcFragmentShadingRateErrors.cpp`
(`src/external/openglcts/modules/glesext/fragment_shading_rate/`).

The test `FragmentShadingRateErrors::iterate` is a straight-line sequence of
GL calls; after each call it either asserts "no error" with
`GLU_EXPECT_NO_ERROR` (setup), or compares `glGetError()` against an expected
error code with `verifyError` folded into a boolean accumulator (probes).

The embedding transcribes the body of `iterate` as a list of steps
(`program`), one step per GL call of the source, in source order, with the
three capability `if`-gates of the source kept as list-level conditionals.
The driver under test is an oracle `Env.errorOf : Call → GLenum` giving the
response of the `glGetError()` query made directly after each command, and
the queried capability values are further `Env` fields.  `run` interprets
the steps exactly as the source does:

* a plain call only appends to the call trace (`Step.cmd`);
* `GLU_EXPECT_NO_ERROR(gl.getError(), msg)` aborts (models the thrown
  `glu::Error`) when the response is not `GL_NO_ERROR` (`Step.cmdChecked`);
* `testPassed = testPassed && verifyError(expected, desc)` evaluates
  `verifyError` only when `testPassed` still holds — C++ `&&` short-circuits
  — and `verifyError` logs `desc` on mismatch (`Step.cmdProbe`).
-/

namespace FragmentShadingRateErrors

/-! GL enum token values.  The numeric values follow the Khronos GL registry
(the repository's `glwEnums.hpp` is outside the analysed sources); only their
distinctness matters to the development. -/

def GL_NO_ERROR : Nat := 0x0000
def GL_INVALID_ENUM : Nat := 0x0500
def GL_INVALID_VALUE : Nat := 0x0501
def GL_INVALID_OPERATION : Nat := 0x0502
def GL_UNSIGNED_BYTE : Nat := 0x1401
def GL_RED : Nat := 0x1903
def GL_TEXTURE_2D : Nat := 0x0DE1
def GL_R8 : Nat := 0x8229
def GL_R8UI : Nat := 0x8232
def GL_SAMPLE_SHADING : Nat := 0x8C36
def GL_COLOR_ATTACHMENT0 : Nat := 0x8CE0
def GL_FRAMEBUFFER : Nat := 0x8D40
def GL_RENDERBUFFER : Nat := 0x8D41
def GL_FRAGMENT_SHADING_RATE_NON_TRIVIAL_COMBINERS_SUPPORTED_EXT : Nat := 0x8F6F
def GL_SHADING_RATE_EXT : Nat := 0x96D0
def GL_SHADING_RATE_ATTACHMENT_EXT : Nat := 0x96D1
def GL_FRAGMENT_SHADING_RATE_COMBINER_OP_KEEP_EXT : Nat := 0x96D2
def GL_FRAGMENT_SHADING_RATE_COMBINER_OP_REPLACE_EXT : Nat := 0x96D3
def GL_FRAGMENT_SHADING_RATE_COMBINER_OP_MIN_EXT : Nat := 0x96D4
def GL_FRAGMENT_SHADING_RATE_COMBINER_OP_MAX_EXT : Nat := 0x96D5
def GL_FRAGMENT_SHADING_RATE_COMBINER_OP_MUL_EXT : Nat := 0x96D6
def GL_MIN_FRAGMENT_SHADING_RATE_ATTACHMENT_TEXEL_WIDTH_EXT : Nat := 0x96D7
def GL_MAX_FRAGMENT_SHADING_RATE_ATTACHMENT_TEXEL_WIDTH_EXT : Nat := 0x96D8
def GL_MIN_FRAGMENT_SHADING_RATE_ATTACHMENT_TEXEL_HEIGHT_EXT : Nat := 0x96D9
def GL_MAX_FRAGMENT_SHADING_RATE_ATTACHMENT_TEXEL_HEIGHT_EXT : Nat := 0x96DA
def GL_MAX_FRAGMENT_SHADING_RATE_ATTACHMENT_TEXEL_ASPECT_RATIO_EXT : Nat := 0x96DB
def GL_MAX_FRAGMENT_SHADING_RATE_ATTACHMENT_LAYERS_EXT : Nat := 0x96DC

/-! Constants local to `iterate` (source lines 122-127, `constexpr deUint32`).
They are used in `GLint`/`GLsizei` argument positions, hence typed `Int`. -/

def kBaseLayer : Int := 0
def kNumLayer : Int := 1
def kTextureWidth : Int := 256
def kTextureHeight : Int := 256
def kTexelWidth : Int := 16
def kTexelHeight : Int := 16

/-- The GL commands issued by `iterate`, with the arguments the source passes.
Enum and object-name arguments are `Nat` (`GLenum`/`GLuint`), signed size and
layer arguments are `Int` (`GLint`/`GLsizei`).  For the `gen*` commands the
driver-chosen object name written through the output pointer is recorded. -/
inductive Call where
  | shadingRateEXT (rate : Nat)
  | genFramebuffers (n : Nat) (id : Nat)
  | bindFramebuffer (target : Nat) (framebuffer : Nat)
  | genTextures (n : Nat) (id : Nat)
  | bindTexture (target : Nat) (texture : Nat)
  | texStorage2D (target : Nat) (levels : Int) (internalformat : Nat) (width : Int) (height : Int)
  | texImage2D (target : Nat) (level : Int) (internalformat : Nat) (width : Int) (height : Int)
      (border : Int) (format : Nat) (type : Nat)
  | getIntegerv (pname : Nat)
  | getBooleanv (pname : Nat)
  | framebufferShadingRateEXT (target : Nat) (attachment : Nat) (texture : Nat)
      (baseLayer : Int) (numLayers : Int) (texelWidth : Int) (texelHeight : Int)
  | shadingRateCombinerOpsEXT (combinerOp0 : Nat) (combinerOp1 : Nat)
  | deleteFramebuffers (n : Nat) (id : Nat)
  | deleteTextures (n : Nat) (id : Nat)
deriving DecidableEq, BEq, Repr

/-- The environment of one `iterate` run: the harness capability flags
(`m_is_fragment_shading_rate_attachment_supported`,
`m_is_fragment_shading_rate_primitive_supported`), the values the driver
returns for the `getIntegerv`/`getBooleanv` queries and the `gen*` output
names, and the oracle `errorOf` giving the `glGetError()` response observed
directly after each command. -/
structure Env where
  attachmentSupported : Bool
  primitiveSupported : Bool
  supportNonTrivialCombiner : Bool
  fboId : Nat
  toId : Nat
  mutableToId : Nat
  minTexelWidth : Int
  maxTexelWidth : Int
  minTexelHeight : Int
  maxTexelHeight : Int
  maxAttachAspectRatio : Int
  maxAttachLayerCount : Int
  errorOf : Call → Nat

/-- Observable state threaded through the run: the trace of issued GL calls,
the messages written to the test log, and the local `bool testPassed`
accumulator of `iterate` (source line 99). -/
structure TState where
  calls : List Call
  log : List String
  testPassed : Bool
deriving DecidableEq, Repr

/-- Result constants passed to `m_testCtx.setTestResult` (source lines 282-289). -/
inductive QpTestResult where
  | QP_TEST_RESULT_PASS
  | QP_TEST_RESULT_FAIL
deriving DecidableEq, Repr

/-- Issue a GL command: append it to the call trace. -/
def issue (s : TState) (c : Call) : TState :=
  { s with calls := s.calls ++ [c] }

/-- `FragmentShadingRateErrors::verifyError` (source lines 74-90): read the
error code of the command issued just before (`c`), return `true` when it
equals `expected_error`, otherwise log `description` and return `false`. -/
def verifyError (env : Env) (c : Call) (expected_error : Nat) (description : String)
    (s : TState) : Bool × TState :=
  let error_code := env.errorOf c
  if error_code ≠ expected_error then
    (false, { s with log := s.log ++ [description] })
  else
    (true, s)

/-- The statement pattern `testPassed = testPassed && verifyError(e, d);`.
C++ `&&` short-circuits: when `testPassed` is already `false`, `verifyError`
is not evaluated at all (no error query, no logging). -/
def probe (env : Env) (c : Call) (expected : Nat) (description : String) (s : TState) : TState :=
  if s.testPassed then
    let r := verifyError env c expected description s
    { r.2 with testPassed := r.1 }
  else
    s

/-- One statement of the `iterate` body: a bare GL command, a command followed
by `GLU_EXPECT_NO_ERROR(gl.getError(), msg)`, or a command followed by
`testPassed = testPassed && verifyError(expected, descr)`. -/
inductive Step where
  | cmd (c : Call)
  | cmdChecked (c : Call) (msg : String)
  | cmdProbe (c : Call) (expected : Nat) (descr : String)
deriving DecidableEq, Repr

/-- The GL command of a step. -/
def stepCall : Step → Call
  | Step.cmd c => c
  | Step.cmdChecked c _ => c
  | Step.cmdProbe c _ _ => c

/-- Interpret one step.  `GLU_EXPECT_NO_ERROR` throws `glu::Error` when the
queried code is not `GL_NO_ERROR`; this is modelled by `Except.error msg`
(`gluDefs.hpp` is outside the analysed sources; modelled from the spec:
"unexpected errors during setup ... are treated as fatal test infrastructure
failures (abort the test)"). -/
def runStep (env : Env) (s : TState) : Step → Except String TState
  | Step.cmd c => Except.ok (issue s c)
  | Step.cmdChecked c msg =>
      if env.errorOf c = GL_NO_ERROR then Except.ok (issue s c) else Except.error msg
  | Step.cmdProbe c expected descr => Except.ok (probe env c expected descr (issue s c))

/-- Run a list of steps in order, aborting at the first failed setup check. -/
def run (env : Env) : List Step → TState → Except String TState
  | [], s => Except.ok s
  | st :: rest, s =>
      match runStep env s st with
      | Except.ok s2 => run env rest s2
      | Except.error m => Except.error m

/-- The body of `FragmentShadingRateErrors::iterate` (source lines 97-292),
one step per GL call, in source order.  Comments give the source lines. -/
def program (env : Env) : List Step :=
  -- lines 116-117
  [ Step.cmdProbe (Call.shadingRateEXT GL_SAMPLE_SHADING) GL_INVALID_ENUM
      ("glShadingRateEXT <rate> is not valid") ]
  -- lines 119-225: if (m_is_fragment_shading_rate_attachment_supported)
  ++ (if env.attachmentSupported then
  [ -- lines 131-132
    Step.cmdChecked (Call.genFramebuffers 1 env.fboId) ("Error setting up framebuffer objects"),
    -- lines 134-135
    Step.cmdChecked (Call.bindFramebuffer GL_FRAMEBUFFER env.fboId)
      ("Error binding frame buffer object!"),
    -- lines 140-141
    Step.cmdChecked (Call.genTextures 1 env.toId) ("Error generating texture objects"),
    -- lines 143-144
    Step.cmdChecked (Call.genTextures 1 env.mutableToId) ("Error generating texture objects"),
    -- lines 146-147
    Step.cmdChecked (Call.bindTexture GL_TEXTURE_2D env.toId) ("Error binding texture object!"),
    -- lines 148-149
    Step.cmdChecked (Call.texStorage2D GL_TEXTURE_2D 1 GL_R8UI kTextureWidth kTextureHeight)
      ("Error allocating texture object!"),
    -- lines 151-152
    Step.cmdChecked (Call.bindTexture GL_TEXTURE_2D env.mutableToId)
      ("Error binding texture object!"),
    -- lines 153-154
    Step.cmdChecked
      (Call.texImage2D GL_TEXTURE_2D 0 GL_R8 kTextureWidth kTextureHeight 0 GL_RED
        GL_UNSIGNED_BYTE)
      ("Error allocating texture object!"),
    -- lines 162-178: the six capability queries
    Step.cmdChecked (Call.getIntegerv GL_MIN_FRAGMENT_SHADING_RATE_ATTACHMENT_TEXEL_WIDTH_EXT)
      ("Error getIntegerv GL_MIN_FRAGMENT_SHADING_RATE_ATTACHMENT_TEXEL_WIDTH_EXT!"),
    Step.cmdChecked (Call.getIntegerv GL_MAX_FRAGMENT_SHADING_RATE_ATTACHMENT_TEXEL_WIDTH_EXT)
      ("Error getIntegerv GL_MAX_FRAGMENT_SHADING_RATE_ATTACHMENT_TEXEL_WIDTH_EXT!"),
    Step.cmdChecked (Call.getIntegerv GL_MIN_FRAGMENT_SHADING_RATE_ATTACHMENT_TEXEL_HEIGHT_EXT)
      ("Error getIntegerv GL_MIN_FRAGMENT_SHADING_RATE_ATTACHMENT_TEXEL_HEIGHT_EXT!"),
    Step.cmdChecked (Call.getIntegerv GL_MAX_FRAGMENT_SHADING_RATE_ATTACHMENT_TEXEL_HEIGHT_EXT)
      ("Error getIntegerv GL_MAX_FRAGMENT_SHADING_RATE_ATTACHMENT_TEXEL_HEIGHT_EXT!"),
    Step.cmdChecked
      (Call.getIntegerv GL_MAX_FRAGMENT_SHADING_RATE_ATTACHMENT_TEXEL_ASPECT_RATIO_EXT)
      ("Error getIntegerv GL_MAX_FRAGMENT_SHADING_RATE_ATTACHMENT_TEXEL_ASPECT_RATIO_EXT!"),
    Step.cmdChecked (Call.getIntegerv GL_MAX_FRAGMENT_SHADING_RATE_ATTACHMENT_LAYERS_EXT)
      ("Error getIntegerv GL_MAX_FRAGMENT_SHADING_RATE_ATTACHMENT_LAYERS_EXT!"),
    -- lines 181-183: <target> not DRAW_FRAMEBUFFER/READ_FRAMEBUFFER/FRAMEBUFFER
    Step.cmdProbe
      (Call.framebufferShadingRateEXT GL_RENDERBUFFER GL_SHADING_RATE_ATTACHMENT_EXT env.toId
        kBaseLayer kNumLayer kTexelWidth kTexelHeight)
      GL_INVALID_ENUM ("framebufferShadingRateEXT <target> is not valid"),
    -- lines 186-188: <attachment> not SHADING_RATE_ATTACHMENT_EXT
    Step.cmdProbe
      (Call.framebufferShadingRateEXT GL_FRAMEBUFFER GL_COLOR_ATTACHMENT0 env.toId
        kBaseLayer kNumLayer kTexelWidth kTexelHeight)
      GL_INVALID_ENUM ("framebufferShadingRateEXT <attachment> is not valid"),
    -- lines 191-193: <texture> not an immutable texture object
    Step.cmdProbe
      (Call.framebufferShadingRateEXT GL_FRAMEBUFFER GL_SHADING_RATE_ATTACHMENT_EXT
        env.mutableToId kBaseLayer kNumLayer kTexelWidth kTexelHeight)
      GL_INVALID_VALUE ("framebufferShadingRateEXT <texture> is not valid"),
    -- lines 196-199: the source passes the enum token itself as <baseLayer>
    Step.cmdProbe
      (Call.framebufferShadingRateEXT GL_FRAMEBUFFER GL_SHADING_RATE_ATTACHMENT_EXT env.toId
        (GL_MAX_FRAGMENT_SHADING_RATE_ATTACHMENT_LAYERS_EXT : Int) kNumLayer
        kTexelWidth kTexelHeight)
      GL_INVALID_VALUE ("framebufferShadingRateEXT <baseLayer> is not valid"),
    -- lines 202-204: <numLayers> = token + 1
    Step.cmdProbe
      (Call.framebufferShadingRateEXT GL_FRAMEBUFFER GL_SHADING_RATE_ATTACHMENT_EXT env.toId 0
        ((GL_MAX_FRAGMENT_SHADING_RATE_ATTACHMENT_LAYERS_EXT : Int) + 1)
        kTexelWidth kTexelHeight)
      GL_INVALID_VALUE ("framebufferShadingRateEXT <numLayers> is not valid"),
    -- lines 207-212: `x << 1` on a GLint is written `x * 2`
    Step.cmdProbe
      (Call.framebufferShadingRateEXT GL_FRAMEBUFFER GL_SHADING_RATE_ATTACHMENT_EXT env.toId 0
        ((GL_MAX_FRAGMENT_SHADING_RATE_ATTACHMENT_LAYERS_EXT : Int) + 1)
        env.minTexelWidth
        ((env.minTexelWidth * (GL_MAX_FRAGMENT_SHADING_RATE_ATTACHMENT_TEXEL_ASPECT_RATIO_EXT : Int)) * 2))
      GL_INVALID_VALUE ("framebufferShadingRateEXT <texelWidth, texelHeight> is not valid"),
    -- lines 215-220
    Step.cmdProbe
      (Call.framebufferShadingRateEXT GL_FRAMEBUFFER GL_SHADING_RATE_ATTACHMENT_EXT env.toId 0
        ((GL_MAX_FRAGMENT_SHADING_RATE_ATTACHMENT_LAYERS_EXT : Int) + 1)
        ((env.minTexelHeight * (GL_MAX_FRAGMENT_SHADING_RATE_ATTACHMENT_TEXEL_ASPECT_RATIO_EXT : Int)) * 2)
        env.minTexelHeight)
      GL_INVALID_VALUE ("framebufferShadingRateEXT <texelWidth, texelHeight> is not valid"),
    -- lines 222-224: note all three names are passed to deleteFramebuffers
    Step.cmd (Call.deleteFramebuffers 1 env.fboId),
    Step.cmd (Call.deleteFramebuffers 1 env.toId),
    Step.cmd (Call.deleteFramebuffers 1 env.mutableToId) ]
  else [])
  -- lines 236-240
  ++ [ Step.cmdProbe
        (Call.shadingRateCombinerOpsEXT GL_SHADING_RATE_EXT
          GL_FRAGMENT_SHADING_RATE_COMBINER_OP_REPLACE_EXT)
        GL_INVALID_ENUM ("shadingRateCombinerOpsEXT <combinerOp0> is not valid"),
       Step.cmdProbe
        (Call.shadingRateCombinerOpsEXT GL_FRAGMENT_SHADING_RATE_COMBINER_OP_KEEP_EXT
          GL_MIN_FRAGMENT_SHADING_RATE_ATTACHMENT_TEXEL_WIDTH_EXT)
        GL_INVALID_ENUM ("shadingRateCombinerOpsEXT <combinerOp1> is not valid"),
       -- lines 242-244
       Step.cmdChecked
        (Call.getBooleanv GL_FRAGMENT_SHADING_RATE_NON_TRIVIAL_COMBINERS_SUPPORTED_EXT)
        ("Error getBooleanv non trivial combiner") ]
  -- lines 251-260: if (!supportNonTrivialCombiner)
  ++ (if env.supportNonTrivialCombiner then [] else
  [ Step.cmdProbe
      (Call.shadingRateCombinerOpsEXT GL_FRAGMENT_SHADING_RATE_COMBINER_OP_MIN_EXT
        GL_FRAGMENT_SHADING_RATE_COMBINER_OP_KEEP_EXT)
      GL_INVALID_OPERATION ("<combinerOp0> combiner is non trivial combiner"),
    Step.cmdProbe
      (Call.shadingRateCombinerOpsEXT GL_FRAGMENT_SHADING_RATE_COMBINER_OP_REPLACE_EXT
        GL_FRAGMENT_SHADING_RATE_COMBINER_OP_MUL_EXT)
      GL_INVALID_OPERATION ("<combinerOp1> combiner is non trivial combiner") ])
  -- lines 264-269: if (!m_is_fragment_shading_rate_primitive_supported)
  ++ (if env.primitiveSupported then [] else
  [ Step.cmdProbe
      (Call.shadingRateCombinerOpsEXT GL_FRAGMENT_SHADING_RATE_COMBINER_OP_MAX_EXT
        GL_FRAGMENT_SHADING_RATE_COMBINER_OP_REPLACE_EXT)
      GL_INVALID_ENUM ("shadingRateCombinerOpsEXT <combinerOp0> is not valid") ])
  -- lines 274-279: if (!m_is_fragment_shading_rate_attachment_supported)
  ++ (if env.attachmentSupported then [] else
  [ Step.cmdProbe
      (Call.shadingRateCombinerOpsEXT GL_FRAGMENT_SHADING_RATE_COMBINER_OP_MAX_EXT
        GL_FRAGMENT_SHADING_RATE_COMBINER_OP_REPLACE_EXT)
      GL_INVALID_ENUM ("shadingRateCombinerOpsEXT <combinerOp0> is not valid") ])

/-- `FragmentShadingRateErrors::iterate`: run the step sequence starting from
`testPassed = true` and set the test result from the accumulator (source
lines 282-289; the function also returns `STOP` and the constant message
"Pass"/"Fail", omitted here).  A failed setup check propagates as the thrown
`glu::Error`. -/
def iterate (env : Env) : Except String (QpTestResult × TState) :=
  match run env (program env) { calls := [], log := [], testPassed := true } with
  | Except.ok s =>
      Except.ok
        ((if s.testPassed then QpTestResult.QP_TEST_RESULT_PASS
          else QpTestResult.QP_TEST_RESULT_FAIL), s)
  | Except.error m => Except.error m

/-! Extraction functions over step lists, used to state properties of the
program: the probes with their expected codes, the setup checks, and the
closed forms of the accumulator and of the log. -/

/-- One intentionally invalid probe: the GL call, the error code the test
expects `glGetError` to return for it, and the failure log message. -/
structure ProbeSpec where
  call : Call
  expected : Nat
  descr : String
deriving DecidableEq, BEq, Repr

/-- The probe of a step, if any. -/
def stepProbe : Step → Option ProbeSpec
  | Step.cmdProbe c e d => some { call := c, expected := e, descr := d }
  | _ => none

/-- The setup check of a step, if any. -/
def stepCheck : Step → Option Call
  | Step.cmdChecked c _ => some c
  | _ => none

/-- All probes of a step list, in order. -/
def probesOf (ps : List Step) : List ProbeSpec := ps.filterMap stepProbe

/-- All setup-checked calls of a step list, in order. -/
def checksOf (ps : List Step) : List Call := ps.filterMap stepCheck

/-- A setup check succeeds when the driver reports `GL_NO_ERROR` for it. -/
def checkOk (env : Env) (c : Call) : Bool := env.errorOf c == GL_NO_ERROR

/-- A probe matches when the driver's next error code equals the expected one. -/
def probeOk (env : Env) (p : ProbeSpec) : Bool := env.errorOf p.call == p.expected

/-- Every setup check of the step list succeeds. -/
def checksOk (env : Env) (ps : List Step) : Bool := (checksOf ps).all (checkOk env)

/-- Every probe of the step list matches its expected error code. -/
def probesAllOk (env : Env) (ps : List Step) : Bool := (probesOf ps).all (probeOk env)

/-- Closed form of the log produced by the probe accumulator: the description
of the first mismatching probe, if any — later probes are short-circuited. -/
def firstFailLog (env : Env) : List ProbeSpec → List String
  | [] => []
  | p :: rest => if probeOk env p then firstFailLog env rest else [p.descr]

/-- The full call trace of a successful run of the program. -/
def callTrace (env : Env) : List Call := (program env).map stepCall

/-- The final state of a successful run of `iterate`. -/
def finalState (env : Env) : TState :=
  { calls := callTrace env
  , log := firstFailLog env (probesOf (program env))
  , testPassed := probesAllOk env (program env) }

/-- The test result a successful run of `iterate` reports. -/
def resultOf (env : Env) : QpTestResult :=
  if probesAllOk env (program env) then QpTestResult.QP_TEST_RESULT_PASS
  else QpTestResult.QP_TEST_RESULT_FAIL

/-! Predicates on calls, used to pick probe families out of traces. -/

/-- Is the call a `framebufferShadingRateEXT` probe? -/
def isFbShading : Call → Bool
  | Call.framebufferShadingRateEXT _ _ _ _ _ _ _ => true
  | _ => false

/-- Is the call `shadingRateCombinerOpsEXT(MIN, KEEP)` (line 253)? -/
def isMinKeep : Call → Bool
  | Call.shadingRateCombinerOpsEXT a b =>
      a == GL_FRAGMENT_SHADING_RATE_COMBINER_OP_MIN_EXT &&
      b == GL_FRAGMENT_SHADING_RATE_COMBINER_OP_KEEP_EXT
  | _ => false

/-- Is the call `shadingRateCombinerOpsEXT(REPLACE, MUL)` (line 257)? -/
def isReplaceMul : Call → Bool
  | Call.shadingRateCombinerOpsEXT a b =>
      a == GL_FRAGMENT_SHADING_RATE_COMBINER_OP_REPLACE_EXT &&
      b == GL_FRAGMENT_SHADING_RATE_COMBINER_OP_MUL_EXT
  | _ => false

/-- Is the call `shadingRateCombinerOpsEXT(MAX, REPLACE)` (lines 266, 276)? -/
def isMaxReplace : Call → Bool
  | Call.shadingRateCombinerOpsEXT a b =>
      a == GL_FRAGMENT_SHADING_RATE_COMBINER_OP_MAX_EXT &&
      b == GL_FRAGMENT_SHADING_RATE_COMBINER_OP_REPLACE_EXT
  | _ => false

/-- Is the call a `deleteFramebuffers` call? -/
def isDeleteFramebuffers : Call → Bool
  | Call.deleteFramebuffers _ _ => true
  | _ => false

/-- Is the call a `deleteTextures` call? -/
def isDeleteTextures : Call → Bool
  | Call.deleteTextures _ _ => true
  | _ => false

/-- Is the probe a `framebufferShadingRateEXT` probe? -/
def fbProbe (p : ProbeSpec) : Bool := isFbShading p.call

/-- Is the probe a `shadingRateCombinerOpsEXT(MAX, REPLACE)` probe? -/
def maxReplaceProbe (p : ProbeSpec) : Bool := isMaxReplace p.call

/-- The probe both extension-absence branches issue: the identical call
`shadingRateCombinerOpsEXT(MAX, REPLACE)` with expected `GL_INVALID_ENUM`. -/
def extAbsentSpec : ProbeSpec :=
  { call := Call.shadingRateCombinerOpsEXT GL_FRAGMENT_SHADING_RATE_COMBINER_OP_MAX_EXT
      GL_FRAGMENT_SHADING_RATE_COMBINER_OP_REPLACE_EXT
  , expected := GL_INVALID_ENUM
  , descr := "shadingRateCombinerOpsEXT <combinerOp0> is not valid" }

/-! Concrete environments used as witnesses and counterexamples. -/

/-- A conforming driver: it answers every probe with exactly the error code
the test expects and every setup command with `GL_NO_ERROR`. -/
def goodDriver : Call → Nat
  | Call.shadingRateEXT _ => GL_INVALID_ENUM
  | Call.framebufferShadingRateEXT t a _ _ _ _ _ =>
      if t == GL_RENDERBUFFER || a == GL_COLOR_ATTACHMENT0 then GL_INVALID_ENUM
      else GL_INVALID_VALUE
  | Call.shadingRateCombinerOpsEXT a b =>
      if a == GL_SHADING_RATE_EXT ||
          b == GL_MIN_FRAGMENT_SHADING_RATE_ATTACHMENT_TEXEL_WIDTH_EXT then GL_INVALID_ENUM
      else if a == GL_FRAGMENT_SHADING_RATE_COMBINER_OP_MIN_EXT ||
          b == GL_FRAGMENT_SHADING_RATE_COMBINER_OP_MUL_EXT then GL_INVALID_OPERATION
      else GL_INVALID_ENUM
  | _ => GL_NO_ERROR

/-- A broken driver that never raises any error: every probe mismatches. -/
def silentDriver : Call → Nat
  | _ => GL_NO_ERROR

/-- A driver that fails during setup: the `getBooleanv` capability query
itself raises `GL_INVALID_OPERATION`. -/
def setupFailDriver : Call → Nat
  | Call.getBooleanv _ => GL_INVALID_OPERATION
  | _ => GL_NO_ERROR

/-- A run with the attachment extension supported, non-trivial combiners
unsupported, the primitive extension absent, and a conforming driver. -/
def envAllOk : Env :=
  { attachmentSupported := true
  , primitiveSupported := false
  , supportNonTrivialCombiner := false
  , fboId := 1
  , toId := 2
  , mutableToId := 3
  , minTexelWidth := 16
  , maxTexelWidth := 64
  , minTexelHeight := 16
  , maxTexelHeight := 64
  , maxAttachAspectRatio := 8
  , maxAttachLayerCount := 2048
  , errorOf := goodDriver }

/-- Like `envAllOk` but with the never-erring driver: every probe fails. -/
def envBad : Env :=
  { envAllOk with attachmentSupported := false, errorOf := silentDriver }

/-- Like `envBad` but the driver errors on the `getBooleanv` setup query. -/
def envSetupFail : Env :=
  { envBad with errorOf := setupFailDriver }

/-- The output of the successful `envAllOk` run. -/
def runAllOk : QpTestResult × TState :=
  (iterate envAllOk).toOption.getD
    (QpTestResult.QP_TEST_RESULT_FAIL, { calls := [], log := [], testPassed := true })

/-- The output of the successful (but failing-result) `envBad` run. -/
def runBad : QpTestResult × TState :=
  (iterate envBad).toOption.getD
    (QpTestResult.QP_TEST_RESULT_FAIL, { calls := [], log := [], testPassed := true })

/-! Field equations for the elementary steps. -/

theorem issue_calls (s : TState) (c : Call) : (issue s c).calls = s.calls ++ [c] := rfl

theorem issue_log (s : TState) (c : Call) : (issue s c).log = s.log := rfl

theorem issue_testPassed (s : TState) (c : Call) : (issue s c).testPassed = s.testPassed := rfl

theorem probe_calls (env : Env) (c : Call) (e : Nat) (d : String) (s : TState) :
    (probe env c e d s).calls = s.calls := by
  unfold probe verifyError
  by_cases h : s.testPassed <;> by_cases h2 : env.errorOf c = e <;> simp [h, h2]

theorem probe_testPassed (env : Env) (c : Call) (e : Nat) (d : String) (s : TState) :
    (probe env c e d s).testPassed = (s.testPassed && (env.errorOf c == e)) := by
  unfold probe verifyError
  by_cases h : s.testPassed <;> by_cases h2 : env.errorOf c = e <;> simp [h, h2]

theorem probe_log (env : Env) (c : Call) (e : Nat) (d : String) (s : TState) :
    (probe env c e d s).log =
      s.log ++ (if s.testPassed && !(env.errorOf c == e) then [d] else []) := by
  unfold probe verifyError
  by_cases h : s.testPassed <;> by_cases h2 : env.errorOf c = e <;> simp [h, h2]

/-- Closed form of a whole run: a run fails exactly when some setup check
fails, and a successful run appends every call to the trace, conjoins every
probe outcome onto the accumulator, and logs the description of the first
mismatching probe only (short-circuit evaluation skips all later checks). -/
theorem run_spec (env : Env) (ps : List Step) : ∀ s : TState,
    (checksOk env ps = false → (run env ps s).isOk = false)
  ∧ (checksOk env ps = true →
      run env ps s = Except.ok
        { calls := s.calls ++ ps.map stepCall
        , log := s.log ++ (if s.testPassed then firstFailLog env (probesOf ps) else [])
        , testPassed := s.testPassed && probesAllOk env ps }) := by
  induction ps with
  | nil =>
      intro s
      refine ⟨fun h => ?_, fun _ => ?_⟩
      · simp [checksOk, checksOf] at h
      · simp [run, probesAllOk, probesOf, firstFailLog]
  | cons st rest ih =>
      intro s
      cases st with
      | cmd c =>
          have hck : checksOk env (Step.cmd c :: rest) = checksOk env rest := by
            simp [checksOk, checksOf, List.filterMap_cons, stepCheck]
          have hrun : run env (Step.cmd c :: rest) s = run env rest (issue s c) := rfl
          refine ⟨fun h => ?_, fun h => ?_⟩
          · rw [hck] at h
            rw [hrun]
            exact (ih (issue s c)).1 h
          · rw [hck] at h
            rw [hrun, (ih (issue s c)).2 h]
            simp [issue, probesAllOk, probesOf, List.filterMap_cons, stepProbe, stepCall]
      | cmdChecked c msg =>
          have hck : checksOk env (Step.cmdChecked c msg :: rest) =
              (checkOk env c && checksOk env rest) := by
            simp [checksOk, checksOf, List.filterMap_cons, stepCheck]
          by_cases hge : env.errorOf c = GL_NO_ERROR
          · have hco : checkOk env c = true := by simp [checkOk, hge]
            have hrun : run env (Step.cmdChecked c msg :: rest) s = run env rest (issue s c) := by
              simp [run, runStep, hge]
            refine ⟨fun h => ?_, fun h => ?_⟩
            · rw [hck, hco, Bool.true_and] at h
              rw [hrun]
              exact (ih (issue s c)).1 h
            · rw [hck, hco, Bool.true_and] at h
              rw [hrun, (ih (issue s c)).2 h]
              simp [issue, probesAllOk, probesOf, List.filterMap_cons, stepProbe, stepCall]
          · have hco : checkOk env c = false := by simp [checkOk, hge]
            have hrun : run env (Step.cmdChecked c msg :: rest) s = Except.error msg := by
              simp [run, runStep, hge]
            refine ⟨fun _ => ?_, fun h => ?_⟩
            · rw [hrun]
              rfl
            · rw [hck, hco, Bool.false_and] at h
              cases h
      | cmdProbe c e d =>
          have hck : checksOk env (Step.cmdProbe c e d :: rest) = checksOk env rest := by
            simp [checksOk, checksOf, List.filterMap_cons, stepCheck]
          have hrun : run env (Step.cmdProbe c e d :: rest) s =
              run env rest (probe env c e d (issue s c)) := rfl
          refine ⟨fun h => ?_, fun h => ?_⟩
          · rw [hck] at h
            rw [hrun]
            exact (ih (probe env c e d (issue s c))).1 h
          · rw [hck] at h
            rw [hrun, (ih (probe env c e d (issue s c))).2 h]
            refine congrArg Except.ok ?_
            have hprobes : probesOf (Step.cmdProbe c e d :: rest) =
                { call := c, expected := e, descr := d } :: probesOf rest := by
              simp [probesOf, List.filterMap_cons, stepProbe]
            refine TState.mk.injEq .. ▸ ⟨?_, ?_, ?_⟩
            · rw [probe_calls, issue_calls, List.map_cons, List.append_assoc]
              rfl
            · rw [probe_log, probe_testPassed, issue_log, issue_testPassed, hprobes,
                List.append_assoc]
              cases hs : s.testPassed <;>
                cases ht : (env.errorOf c == e) <;>
                  simp [firstFailLog, probeOk, ht]
            · rw [probe_testPassed, issue_testPassed]
              have hall : probesAllOk env (Step.cmdProbe c e d :: rest) =
                  ((env.errorOf c == e) && probesAllOk env rest) := by
                simp [probesAllOk, probesOf, List.filterMap_cons, stepProbe, List.all_cons,
                  probeOk]
              rw [hall, Bool.and_assoc]

/-- Closed form of `iterate`: a failed setup check aborts the run, and
otherwise the reported result and final state are given by `resultOf` and
`finalState`. -/
theorem iterate_spec (env : Env) :
    (checksOk env (program env) = false → (iterate env).isOk = false)
  ∧ (checksOk env (program env) = true →
      iterate env = Except.ok (resultOf env, finalState env)) := by
  have h := run_spec env (program env) { calls := [], log := [], testPassed := true }
  refine ⟨fun hck => ?_, fun hck => ?_⟩
  · have h1 := h.1 hck
    unfold iterate
    cases hr : run env (program env) { calls := [], log := [], testPassed := true } with
    | ok s => rw [hr] at h1; simp [Except.isOk, Except.toBool] at h1
    | error m => rfl
  · have h2 := h.2 hck
    unfold iterate
    rw [h2]
    simp only [List.nil_append, Bool.true_and, if_pos]
    rfl

/-- Inversion: a successful `iterate` run determines the setup outcome, the
result and the final state. -/
theorem iterate_ok_inv (env : Env) (res : QpTestResult) (s : TState)
    (h : iterate env = Except.ok (res, s)) :
    checksOk env (program env) = true ∧ res = resultOf env ∧ s = finalState env := by
  cases hck : checksOk env (program env) with
  | false =>
      exfalso
      have h1 := (iterate_spec env).1 hck
      rw [h] at h1
      simp [Except.isOk, Except.toBool] at h1
  | true =>
      have h2 := (iterate_spec env).2 hck
      rw [h] at h2
      simp only [Except.ok.injEq, Prod.mk.injEq] at h2
      exact ⟨rfl, h2.1, h2.2⟩

/-- When a successful run reports `QP_TEST_RESULT_PASS`, every probe of the
program matched its expected error code. -/
theorem pass_probe (env : Env) (res : QpTestResult) (s : TState)
    (h : iterate env = Except.ok (res, s)) (hres : res = QpTestResult.QP_TEST_RESULT_PASS)
    (p : ProbeSpec) (hp : p ∈ probesOf (program env)) :
    env.errorOf p.call = p.expected := by
  obtain ⟨hck, hr, hs⟩ := iterate_ok_inv env res s h
  rw [hres] at hr
  unfold resultOf at hr
  by_cases hall : probesAllOk env (program env) = true
  · have hall2 : (probesOf (program env)).all (probeOk env) = true := hall
    have := List.all_eq_true.mp hall2 p hp
    simpa [probeOk] using this
  · rw [if_neg hall] at hr
    cases hr

/-- Filtering preserves `List.all`. -/
theorem all_filter_of_all {α : Type _} (p q : α → Bool) (l : List α) (h : l.all q = true) :
    (l.filter p).all q = true := by
  rw [List.all_eq_true] at h ⊢
  intro a ha
  exact h a (List.mem_of_mem_filter ha)

/-- C1: the aggregate outcome of a successful `iterate` run is
`QP_TEST_RESULT_PASS` exactly when every individual probe's error query
returned its expected error code; the probe outcomes are conjoined into the
single boolean accumulator `testPassed`, which the final state exposes. -/
theorem iterate_pass_iff_all_probes_match (env : Env) (res : QpTestResult) (s : TState)
    (h : iterate env = Except.ok (res, s)) :
    (res = QpTestResult.QP_TEST_RESULT_PASS ↔ probesAllOk env (program env) = true)
  ∧ s.testPassed = probesAllOk env (program env) := by
  obtain ⟨hck, hr, hs⟩ := iterate_ok_inv env res s h
  subst hr
  subst hs
  refine ⟨?_, rfl⟩
  unfold resultOf
  by_cases hall : probesAllOk env (program env) = true
  · simp [hall]
  · simp [hall]

/-- Witness for C1: the conforming environment `envAllOk` makes every probe
match and the run report pass. -/
theorem iterate_pass_iff_all_probes_match_witness :
    (runAllOk.1 = QpTestResult.QP_TEST_RESULT_PASS ↔
      probesAllOk envAllOk (program envAllOk) = true)
  ∧ runAllOk.2.testPassed = probesAllOk envAllOk (program envAllOk) :=
  iterate_pass_iff_all_probes_match envAllOk runAllOk.1 runAllOk.2 (by rfl)

/-- C2 counterexample: with the never-erring driver `envBad` every probe
mismatches, yet only the first probe's description is logged — the claim that
every probe's mismatch is logged even after an earlier mismatch is false.
The combiner probe of source line 236 also mismatches (the driver returned
`GL_NO_ERROR`, not `GL_INVALID_ENUM`), but its description never reaches the
log, because the short-circuit `&&` skips its `verifyError` call. -/
theorem later_mismatch_not_logged_counterexample :
    (iterate envBad).isOk = true
  ∧ runBad.2.log = [("glShadingRateEXT <rate> is not valid")]
  ∧ (envBad.errorOf (Call.shadingRateCombinerOpsEXT GL_SHADING_RATE_EXT
      GL_FRAGMENT_SHADING_RATE_COMBINER_OP_REPLACE_EXT) == GL_INVALID_ENUM) = false
  ∧ runBad.2.log.contains ("shadingRateCombinerOpsEXT <combinerOp0> is not valid") = false :=
  ⟨rfl, rfl, rfl, rfl⟩

/-- C2 (amended): two-tier error handling.  An unexpected error on a setup
call aborts `iterate` (no result is produced); otherwise the run completes,
every probe's GL call is issued, each probe outcome is folded into the
accumulator, and the description of the first mismatching probe is logged —
but, because of short-circuit `&&`, the error checks of all probes after the
first mismatch are skipped, so later mismatches are neither queried nor
logged. -/
theorem iterate_two_tier_error_handling (env : Env) :
    (checksOk env (program env) = false → (iterate env).isOk = false)
  ∧ (checksOk env (program env) = true →
      iterate env = Except.ok (resultOf env,
        { calls := (program env).map stepCall
        , log := firstFailLog env (probesOf (program env))
        , testPassed := probesAllOk env (program env) })) :=
  iterate_spec env

/-- Witness for C2: a setup failure on the `getBooleanv` query aborts the run
(`envSetupFail`), and the never-erring driver (`envBad`) completes with the
characterised final state. -/
theorem iterate_two_tier_error_handling_witness :
    (iterate envSetupFail).isOk = false
  ∧ iterate envBad = Except.ok (resultOf envBad,
      { calls := (program envBad).map stepCall
      , log := firstFailLog envBad (probesOf (program envBad))
      , testPassed := probesAllOk envBad (program envBad) }) :=
  ⟨(iterate_two_tier_error_handling envSetupFail).1 (by rfl),
   (iterate_two_tier_error_handling envBad).2 (by rfl)⟩

/-- C3: `verifyError` returns `true` exactly when the driver's error query
for the preceding call returns the expected code; on any other code
(including `GL_NO_ERROR`) it returns `false` and appends the supplied
description to the log, and it never touches the call trace. -/
theorem verifyError_matches_expected (env : Env) (c : Call) (expected : Nat) (d : String)
    (s : TState) :
    (verifyError env c expected d s).1 = (env.errorOf c == expected)
  ∧ (verifyError env c expected d s).2.log =
      (if env.errorOf c = expected then s.log else s.log ++ [d])
  ∧ (verifyError env c expected d s).2.calls = s.calls := by
  unfold verifyError
  by_cases h : env.errorOf c = expected <;> simp [h]

/-- When a successful run reports `QP_TEST_RESULT_PASS`, all probes matched. -/
theorem pass_all (env : Env) (res : QpTestResult) (s : TState)
    (h : iterate env = Except.ok (res, s)) (hres : res = QpTestResult.QP_TEST_RESULT_PASS) :
    probesAllOk env (program env) = true := by
  obtain ⟨hck, hr, hs⟩ := iterate_ok_inv env res s h
  rw [hres] at hr
  unfold resultOf at hr
  by_cases hall : probesAllOk env (program env) = true
  · exact hall
  · rw [if_neg hall] at hr
    cases hr

/-- C4 (code bug): in the successful `envAllOk` run, the out-of-range
base-layer probe passes the enum token
`GL_MAX_FRAGMENT_SHADING_RATE_ATTACHMENT_LAYERS_EXT` (0x96DC = 38620) itself
as `<baseLayer>`; the queried `maxAttachLayerCount` limit (here 2048) is
never passed — the variable is dead after the `getIntegerv` query, although
the adjoining source comment states the rule in terms of the queried value. -/
theorem baseLayer_probe_passes_token_not_queried_limit :
    runAllOk.2.calls.contains
      (Call.framebufferShadingRateEXT GL_FRAMEBUFFER GL_SHADING_RATE_ATTACHMENT_EXT
        envAllOk.toId (GL_MAX_FRAGMENT_SHADING_RATE_ATTACHMENT_LAYERS_EXT : Int)
        kNumLayer kTexelWidth kTexelHeight) = true
  ∧ envAllOk.maxAttachLayerCount = 2048
  ∧ runAllOk.2.calls.contains
      (Call.framebufferShadingRateEXT GL_FRAMEBUFFER GL_SHADING_RATE_ATTACHMENT_EXT
        envAllOk.toId envAllOk.maxAttachLayerCount kNumLayer kTexelWidth kTexelHeight)
      = false :=
  ⟨rfl, rfl, rfl⟩

/-- C5 (code bug): in the successful `envAllOk` run (attachment extension
supported), the three release calls at the end of the attachment block are
all `deleteFramebuffers` — including the ones passing the two texture names —
and `deleteTextures` is never called, so the textures are not released with
the appropriate delete call. -/
theorem textures_released_with_deleteFramebuffers :
    envAllOk.attachmentSupported = true
  ∧ runAllOk.2.calls.filter isDeleteFramebuffers =
      [ Call.deleteFramebuffers 1 envAllOk.fboId
      , Call.deleteFramebuffers 1 envAllOk.toId
      , Call.deleteFramebuffers 1 envAllOk.mutableToId ]
  ∧ runAllOk.2.calls.filter isDeleteTextures = [] :=
  ⟨rfl, rfl, rfl⟩

/-- C7: probe execution is gated by the capability flags: the seven
`framebufferShadingRateEXT` probes are issued iff the attachment extension is
supported; the `(MIN, KEEP)` and `(REPLACE, MUL)` non-trivial-combiner probes
are issued iff non-trivial combiners are unsupported; and the identical
`(MAX, REPLACE)` extension-absence probe is issued once for the primitive
extension being absent and once for the attachment extension being absent. -/
theorem probe_gating_by_capabilities (env : Env) :
    ((callTrace env).filter isFbShading).length = (if env.attachmentSupported then 7 else 0)
  ∧ ((callTrace env).filter isMinKeep).length =
      (if env.supportNonTrivialCombiner then 0 else 1)
  ∧ ((callTrace env).filter isReplaceMul).length =
      (if env.supportNonTrivialCombiner then 0 else 1)
  ∧ ((callTrace env).filter isMaxReplace).length =
      ((if env.primitiveSupported then 0 else 1) +
        (if env.attachmentSupported then 0 else 1)) := by
  obtain ⟨att, prim, ntc, fbo, tid, mid, minW, maxW, minH, maxH, maxAR, maxL, errF⟩ := env
  cases att <;> cases prim <;> cases ntc <;> exact ⟨rfl, rfl, rfl, rfl⟩

/-- C10: every `shadingRateCombinerOpsEXT(MAX, REPLACE)` probe of the program
is the identical spec `extAbsentSpec` expecting `GL_INVALID_ENUM` (not
`GL_INVALID_OPERATION`), and it occurs once for the primitive extension being
absent plus once for the attachment extension being absent. -/
theorem extension_absence_probes_expect_invalid_enum (env : Env) :
    (probesOf (program env)).filter maxReplaceProbe =
      List.replicate ((if env.primitiveSupported then 0 else 1) +
        (if env.attachmentSupported then 0 else 1)) extAbsentSpec := by
  obtain ⟨att, prim, ntc, fbo, tid, mid, minW, maxW, minH, maxH, maxAR, maxL, errF⟩ := env
  cases att <;> cases prim <;> cases ntc <;> rfl

/-- C6: with the attachment extension supported, the program has exactly
seven `framebufferShadingRateEXT` probes — bad target, bad attachment point,
non-immutable texture, out-of-range base layer, out-of-range layer count,
and two aspect-ratio violations — expecting `GL_INVALID_ENUM` for the first
two and `GL_INVALID_VALUE` for the remaining five (in particular the
mutable-storage texture probe expects `GL_INVALID_VALUE`); and a pass result
means each of the seven matched its expected code. -/
theorem seven_framebufferShadingRate_probes (env : Env) (res : QpTestResult) (s : TState)
    (hA : env.attachmentSupported = true) (h : iterate env = Except.ok (res, s)) :
    (probesOf (program env)).filter fbProbe =
      [ { call := Call.framebufferShadingRateEXT GL_RENDERBUFFER GL_SHADING_RATE_ATTACHMENT_EXT
            env.toId kBaseLayer kNumLayer kTexelWidth kTexelHeight
        , expected := GL_INVALID_ENUM
        , descr := "framebufferShadingRateEXT <target> is not valid" }
      , { call := Call.framebufferShadingRateEXT GL_FRAMEBUFFER GL_COLOR_ATTACHMENT0
            env.toId kBaseLayer kNumLayer kTexelWidth kTexelHeight
        , expected := GL_INVALID_ENUM
        , descr := "framebufferShadingRateEXT <attachment> is not valid" }
      , { call := Call.framebufferShadingRateEXT GL_FRAMEBUFFER GL_SHADING_RATE_ATTACHMENT_EXT
            env.mutableToId kBaseLayer kNumLayer kTexelWidth kTexelHeight
        , expected := GL_INVALID_VALUE
        , descr := "framebufferShadingRateEXT <texture> is not valid" }
      , { call := Call.framebufferShadingRateEXT GL_FRAMEBUFFER GL_SHADING_RATE_ATTACHMENT_EXT
            env.toId (GL_MAX_FRAGMENT_SHADING_RATE_ATTACHMENT_LAYERS_EXT : Int)
            kNumLayer kTexelWidth kTexelHeight
        , expected := GL_INVALID_VALUE
        , descr := "framebufferShadingRateEXT <baseLayer> is not valid" }
      , { call := Call.framebufferShadingRateEXT GL_FRAMEBUFFER GL_SHADING_RATE_ATTACHMENT_EXT
            env.toId 0 ((GL_MAX_FRAGMENT_SHADING_RATE_ATTACHMENT_LAYERS_EXT : Int) + 1)
            kTexelWidth kTexelHeight
        , expected := GL_INVALID_VALUE
        , descr := "framebufferShadingRateEXT <numLayers> is not valid" }
      , { call := Call.framebufferShadingRateEXT GL_FRAMEBUFFER GL_SHADING_RATE_ATTACHMENT_EXT
            env.toId 0 ((GL_MAX_FRAGMENT_SHADING_RATE_ATTACHMENT_LAYERS_EXT : Int) + 1)
            env.minTexelWidth
            ((env.minTexelWidth *
              (GL_MAX_FRAGMENT_SHADING_RATE_ATTACHMENT_TEXEL_ASPECT_RATIO_EXT : Int)) * 2)
        , expected := GL_INVALID_VALUE
        , descr := "framebufferShadingRateEXT <texelWidth, texelHeight> is not valid" }
      , { call := Call.framebufferShadingRateEXT GL_FRAMEBUFFER GL_SHADING_RATE_ATTACHMENT_EXT
            env.toId 0 ((GL_MAX_FRAGMENT_SHADING_RATE_ATTACHMENT_LAYERS_EXT : Int) + 1)
            ((env.minTexelHeight *
              (GL_MAX_FRAGMENT_SHADING_RATE_ATTACHMENT_TEXEL_ASPECT_RATIO_EXT : Int)) * 2)
            env.minTexelHeight
        , expected := GL_INVALID_VALUE
        , descr := "framebufferShadingRateEXT <texelWidth, texelHeight> is not valid" } ]
  ∧ (res = QpTestResult.QP_TEST_RESULT_PASS →
      ((probesOf (program env)).filter fbProbe).all (probeOk env) = true) := by
  refine ⟨?_, fun hres => all_filter_of_all _ _ _ (pass_all env res s h hres)⟩
  obtain ⟨att, prim, ntc, fbo, tid, mid, minW, maxW, minH, maxH, maxAR, maxL, errF⟩ := env
  cases att with
  | false => simp at hA
  | true => cases prim <;> cases ntc <;> rfl

/-- Witness for C6 at the conforming environment `envAllOk`. -/
theorem seven_framebufferShadingRate_probes_witness :
    (probesOf (program envAllOk)).filter fbProbe =
      [ { call := Call.framebufferShadingRateEXT GL_RENDERBUFFER GL_SHADING_RATE_ATTACHMENT_EXT
            envAllOk.toId kBaseLayer kNumLayer kTexelWidth kTexelHeight
        , expected := GL_INVALID_ENUM
        , descr := "framebufferShadingRateEXT <target> is not valid" }
      , { call := Call.framebufferShadingRateEXT GL_FRAMEBUFFER GL_COLOR_ATTACHMENT0
            envAllOk.toId kBaseLayer kNumLayer kTexelWidth kTexelHeight
        , expected := GL_INVALID_ENUM
        , descr := "framebufferShadingRateEXT <attachment> is not valid" }
      , { call := Call.framebufferShadingRateEXT GL_FRAMEBUFFER GL_SHADING_RATE_ATTACHMENT_EXT
            envAllOk.mutableToId kBaseLayer kNumLayer kTexelWidth kTexelHeight
        , expected := GL_INVALID_VALUE
        , descr := "framebufferShadingRateEXT <texture> is not valid" }
      , { call := Call.framebufferShadingRateEXT GL_FRAMEBUFFER GL_SHADING_RATE_ATTACHMENT_EXT
            envAllOk.toId (GL_MAX_FRAGMENT_SHADING_RATE_ATTACHMENT_LAYERS_EXT : Int)
            kNumLayer kTexelWidth kTexelHeight
        , expected := GL_INVALID_VALUE
        , descr := "framebufferShadingRateEXT <baseLayer> is not valid" }
      , { call := Call.framebufferShadingRateEXT GL_FRAMEBUFFER GL_SHADING_RATE_ATTACHMENT_EXT
            envAllOk.toId 0 ((GL_MAX_FRAGMENT_SHADING_RATE_ATTACHMENT_LAYERS_EXT : Int) + 1)
            kTexelWidth kTexelHeight
        , expected := GL_INVALID_VALUE
        , descr := "framebufferShadingRateEXT <numLayers> is not valid" }
      , { call := Call.framebufferShadingRateEXT GL_FRAMEBUFFER GL_SHADING_RATE_ATTACHMENT_EXT
            envAllOk.toId 0 ((GL_MAX_FRAGMENT_SHADING_RATE_ATTACHMENT_LAYERS_EXT : Int) + 1)
            envAllOk.minTexelWidth
            ((envAllOk.minTexelWidth *
              (GL_MAX_FRAGMENT_SHADING_RATE_ATTACHMENT_TEXEL_ASPECT_RATIO_EXT : Int)) * 2)
        , expected := GL_INVALID_VALUE
        , descr := "framebufferShadingRateEXT <texelWidth, texelHeight> is not valid" }
      , { call := Call.framebufferShadingRateEXT GL_FRAMEBUFFER GL_SHADING_RATE_ATTACHMENT_EXT
            envAllOk.toId 0 ((GL_MAX_FRAGMENT_SHADING_RATE_ATTACHMENT_LAYERS_EXT : Int) + 1)
            ((envAllOk.minTexelHeight *
              (GL_MAX_FRAGMENT_SHADING_RATE_ATTACHMENT_TEXEL_ASPECT_RATIO_EXT : Int)) * 2)
            envAllOk.minTexelHeight
        , expected := GL_INVALID_VALUE
        , descr := "framebufferShadingRateEXT <texelWidth, texelHeight> is not valid" } ]
  ∧ (runAllOk.1 = QpTestResult.QP_TEST_RESULT_PASS →
      ((probesOf (program envAllOk)).filter fbProbe).all (probeOk envAllOk) = true) :=
  seven_framebufferShadingRate_probes envAllOk runAllOk.1 runAllOk.2 rfl (by rfl)

/-- C8: the very first GL call `iterate` issues is
`shadingRateEXT(GL_SAMPLE_SHADING)`, its probe is the first probe of the
program and expects `GL_INVALID_ENUM`, and a pass result means the driver's
error query after that call returned `GL_INVALID_ENUM`. -/
theorem sample_shading_probe_expects_invalid_enum (env : Env) (res : QpTestResult) (s : TState)
    (h : iterate env = Except.ok (res, s)) :
    s.calls.head? = some (Call.shadingRateEXT GL_SAMPLE_SHADING)
  ∧ (probesOf (program env)).head? = some
      { call := Call.shadingRateEXT GL_SAMPLE_SHADING
      , expected := GL_INVALID_ENUM
      , descr := "glShadingRateEXT <rate> is not valid" }
  ∧ (res = QpTestResult.QP_TEST_RESULT_PASS →
      env.errorOf (Call.shadingRateEXT GL_SAMPLE_SHADING) = GL_INVALID_ENUM) := by
  obtain ⟨hck, hr, hs⟩ := iterate_ok_inv env res s h
  subst hs
  refine ⟨rfl, rfl, fun hres => ?_⟩
  exact pass_probe env res _ h hres
    { call := Call.shadingRateEXT GL_SAMPLE_SHADING
    , expected := GL_INVALID_ENUM
    , descr := "glShadingRateEXT <rate> is not valid" }
    (List.mem_cons_self _ _)

/-- Witness for C8 at the conforming environment `envAllOk`. -/
theorem sample_shading_probe_expects_invalid_enum_witness :
    runAllOk.2.calls.head? = some (Call.shadingRateEXT GL_SAMPLE_SHADING)
  ∧ (probesOf (program envAllOk)).head? = some
      { call := Call.shadingRateEXT GL_SAMPLE_SHADING
      , expected := GL_INVALID_ENUM
      , descr := "glShadingRateEXT <rate> is not valid" }
  ∧ (runAllOk.1 = QpTestResult.QP_TEST_RESULT_PASS →
      envAllOk.errorOf (Call.shadingRateEXT GL_SAMPLE_SHADING) = GL_INVALID_ENUM) :=
  sample_shading_probe_expects_invalid_enum envAllOk runAllOk.1 runAllOk.2 (by rfl)

/-! The four combiner-operator probe specifications (source lines 236-259). -/

/-- Line 236: `<combinerOp0>` is `SHADING_RATE_EXT`, not a combiner operator. -/
def combinerOp0InvalidSpec : ProbeSpec :=
  { call := Call.shadingRateCombinerOpsEXT GL_SHADING_RATE_EXT
      GL_FRAGMENT_SHADING_RATE_COMBINER_OP_REPLACE_EXT
  , expected := GL_INVALID_ENUM
  , descr := "shadingRateCombinerOpsEXT <combinerOp0> is not valid" }

/-- Line 238: `<combinerOp1>` is a `MIN_..._TEXEL_WIDTH` query token, not a
combiner operator. -/
def combinerOp1InvalidSpec : ProbeSpec :=
  { call := Call.shadingRateCombinerOpsEXT GL_FRAGMENT_SHADING_RATE_COMBINER_OP_KEEP_EXT
      GL_MIN_FRAGMENT_SHADING_RATE_ATTACHMENT_TEXEL_WIDTH_EXT
  , expected := GL_INVALID_ENUM
  , descr := "shadingRateCombinerOpsEXT <combinerOp1> is not valid" }

/-- Line 253: non-trivial `MIN` as `combinerOp0`. -/
def minKeepSpec : ProbeSpec :=
  { call := Call.shadingRateCombinerOpsEXT GL_FRAGMENT_SHADING_RATE_COMBINER_OP_MIN_EXT
      GL_FRAGMENT_SHADING_RATE_COMBINER_OP_KEEP_EXT
  , expected := GL_INVALID_OPERATION
  , descr := "<combinerOp0> combiner is non trivial combiner" }

/-- Line 257: non-trivial `MUL` as `combinerOp1`. -/
def replaceMulSpec : ProbeSpec :=
  { call := Call.shadingRateCombinerOpsEXT GL_FRAGMENT_SHADING_RATE_COMBINER_OP_REPLACE_EXT
      GL_FRAGMENT_SHADING_RATE_COMBINER_OP_MUL_EXT
  , expected := GL_INVALID_OPERATION
  , descr := "<combinerOp1> combiner is non trivial combiner" }

/-- C9: the two invalid combiner-operator pairs (one operand each not a valid
combiner-operator enum) are probed expecting `GL_INVALID_ENUM`, and when the
driver reports non-trivial combiners unsupported, the pairs with `MIN` as
`combinerOp0` and `MUL` as `combinerOp1` are probed expecting
`GL_INVALID_OPERATION`; a pass result means the driver returned exactly those
codes. -/
theorem combiner_probe_expectations (env : Env) (res : QpTestResult) (s : TState)
    (h : iterate env = Except.ok (res, s)) :
    combinerOp0InvalidSpec ∈ probesOf (program env)
  ∧ combinerOp1InvalidSpec ∈ probesOf (program env)
  ∧ (env.supportNonTrivialCombiner = false →
      minKeepSpec ∈ probesOf (program env) ∧ replaceMulSpec ∈ probesOf (program env))
  ∧ (res = QpTestResult.QP_TEST_RESULT_PASS →
      env.errorOf combinerOp0InvalidSpec.call = GL_INVALID_ENUM
    ∧ env.errorOf combinerOp1InvalidSpec.call = GL_INVALID_ENUM)
  ∧ (env.supportNonTrivialCombiner = false → res = QpTestResult.QP_TEST_RESULT_PASS →
      env.errorOf minKeepSpec.call = GL_INVALID_OPERATION
    ∧ env.errorOf replaceMulSpec.call = GL_INVALID_OPERATION) := by
  have hm0 : combinerOp0InvalidSpec ∈ probesOf (program env) := by
    unfold program
    simp [probesOf, List.filterMap_append, List.filterMap_cons, stepProbe,
      combinerOp0InvalidSpec]
  have hm1 : combinerOp1InvalidSpec ∈ probesOf (program env) := by
    unfold program
    simp [probesOf, List.filterMap_append, List.filterMap_cons, stepProbe,
      combinerOp1InvalidSpec]
  have hmk : env.supportNonTrivialCombiner = false →
      minKeepSpec ∈ probesOf (program env) ∧ replaceMulSpec ∈ probesOf (program env) := by
    intro hntc
    constructor <;>
      · unfold program
        simp [probesOf, List.filterMap_append, List.filterMap_cons, stepProbe, hntc,
          minKeepSpec, replaceMulSpec]
  refine ⟨hm0, hm1, hmk, fun hres => ?_, fun hntc hres => ?_⟩
  · exact ⟨pass_probe env res s h hres _ hm0, pass_probe env res s h hres _ hm1⟩
  · exact ⟨pass_probe env res s h hres _ (hmk hntc).1,
      pass_probe env res s h hres _ (hmk hntc).2⟩

/-- Witness for C9 at the conforming environment `envAllOk` (non-trivial
combiners unsupported there). -/
theorem combiner_probe_expectations_witness :
    combinerOp0InvalidSpec ∈ probesOf (program envAllOk)
  ∧ combinerOp1InvalidSpec ∈ probesOf (program envAllOk)
  ∧ (envAllOk.supportNonTrivialCombiner = false →
      minKeepSpec ∈ probesOf (program envAllOk) ∧ replaceMulSpec ∈ probesOf (program envAllOk))
  ∧ (runAllOk.1 = QpTestResult.QP_TEST_RESULT_PASS →
      envAllOk.errorOf combinerOp0InvalidSpec.call = GL_INVALID_ENUM
    ∧ envAllOk.errorOf combinerOp1InvalidSpec.call = GL_INVALID_ENUM)
  ∧ (envAllOk.supportNonTrivialCombiner = false →
      runAllOk.1 = QpTestResult.QP_TEST_RESULT_PASS →
      envAllOk.errorOf minKeepSpec.call = GL_INVALID_OPERATION
    ∧ envAllOk.errorOf replaceMulSpec.call = GL_INVALID_OPERATION) :=
  combiner_probe_expectations envAllOk runAllOk.1 runAllOk.2 (by rfl)

end FragmentShadingRateErrors
